import Mathlib

/-!
Shallow embedding of the UNIKL library-management core
(src/library_management/books/models.py and views.py):
books with copy counters, borrow records, fines and reservations,
together with the view-level operations borrow_book, return_book,
reserve_book and cancel_reservation.

Machine integers are modelled as Int/Nat (no overflow is relevant at the
sizes involved); timestamps are integer seconds; monetary amounts are
rationals (FINE_PER_DAY = 0.50 is exactly representable).
-/

namespace LibrarySystem

/-- Seconds in a day; `timedelta.days` floors elapsed seconds by this. -/
def secondsPerDay : Int := 86400

/-- settings.BORROW_PERIOD_DAYS default. -/
def BORROW_PERIOD_DAYS : Int := 14

/-- settings.FINE_PER_DAY default (0.50). -/
def FINE_PER_DAY : ℚ := 1 / 2

/-- settings.MAX_BOOKS_PER_USER default. -/
def MAX_BOOKS_PER_USER : Nat := 5

/-- Book.Status choices (models.py). -/
inductive BookStatus
  | AVAILABLE
  | BORROWED
  | RESERVED
  | MAINTENANCE
deriving DecidableEq, Repr

/-- Book inventory fields (models.py, class Book). Only the fields the
borrow/return logic reads or writes are modelled. -/
structure Book where
  total_copies : Int
  available_copies : Int
  status : BookStatus
deriving DecidableEq, Repr

/-- Book.is_available property: `available_copies > 0` (models.py:115-117). -/
def Book.is_available (b : Book) : Bool :=
  b.available_copies > 0

/-- Book.borrow (models.py:119-127): decrement when a copy is available,
set status BORROWED when the counter reaches 0; returns success flag. -/
def Book.borrow (b : Book) : Book × Bool :=
  if b.available_copies > 0 then
    let b1 : Book := { b with available_copies := b.available_copies - 1 }
    let b2 : Book :=
      if b1.available_copies = 0 then { b1 with status := BookStatus.BORROWED } else b1
    (b2, true)
  else
    (b, false)

/-- Book.return_book (models.py:129-137): increment when below total,
set status AVAILABLE when the counter is positive; returns success flag. -/
def Book.return_book (b : Book) : Book × Bool :=
  if b.available_copies < b.total_copies then
    let b1 : Book := { b with available_copies := b.available_copies + 1 }
    let b2 : Book :=
      if b1.available_copies > 0 then { b1 with status := BookStatus.AVAILABLE } else b1
    (b2, true)
  else
    (b, false)

/-- A step in a sequence of inventory mutations: Book.borrow or Book.return_book. -/
inductive CopyOp
  | borrowOp
  | returnOp
deriving DecidableEq, Repr

/-- Apply one inventory mutation, keeping the mutated book. -/
def Book.applyOp (b : Book) : CopyOp → Book
  | CopyOp.borrowOp => b.borrow.1
  | CopyOp.returnOp => b.return_book.1

/-- Apply a sequence of inventory mutations. -/
def Book.applyOps (b : Book) : List CopyOp → Book
  | [] => b
  | op :: ops => (b.applyOp op).applyOps ops

/-- The copy-counter invariant: `0 ≤ available_copies ≤ total_copies`. -/
def Book.inv (b : Book) : Prop :=
  0 ≤ b.available_copies ∧ b.available_copies ≤ b.total_copies

lemma Book.applyOp_inv (b : Book) (op : CopyOp) (h : b.inv) : (b.applyOp op).inv := by
  obtain ⟨h0, h1⟩ := h
  cases op with
  | borrowOp =>
    unfold Book.applyOp Book.borrow
    dsimp only
    split_ifs with hpos hzero
    · exact ⟨by dsimp only [Book.inv]; omega, by dsimp only [Book.inv]; omega⟩
    · exact ⟨by dsimp only [Book.inv]; omega, by dsimp only [Book.inv]; omega⟩
    · exact ⟨h0, h1⟩
  | returnOp =>
    unfold Book.applyOp Book.return_book
    dsimp only
    split_ifs with hlt hpos
    · exact ⟨by dsimp only [Book.inv]; omega, by dsimp only [Book.inv]; omega⟩
    · exact ⟨by dsimp only [Book.inv]; omega, by dsimp only [Book.inv]; omega⟩
    · exact ⟨h0, h1⟩

/-- C2: starting from `0 ≤ available_copies ≤ total_copies`, every sequence of
Book.borrow / Book.return_book calls preserves `0 ≤ available_copies ≤
total_copies`: borrow never drives the counter below zero and return_book
never drives it above total_copies. -/
theorem c2_inventory_invariant (b : Book) (ops : List CopyOp) (h : b.inv) :
    (b.applyOps ops).inv := by
  induction ops generalizing b with
  | nil => exact h
  | cons op ops ih =>
    exact ih (b.applyOp op) (Book.applyOp_inv b op h)

/-- Witness for C2 at a concrete book and mutation sequence. -/
theorem c2_inventory_invariant_witness :
    (Book.mk 2 1 BookStatus.AVAILABLE).inv ∧
    ((Book.mk 2 1 BookStatus.AVAILABLE).applyOps
      [CopyOp.borrowOp, CopyOp.borrowOp, CopyOp.returnOp, CopyOp.returnOp,
       CopyOp.returnOp]).inv := by
  constructor
  · exact ⟨by decide, by decide⟩
  · exact c2_inventory_invariant (Book.mk 2 1 BookStatus.AVAILABLE) _ ⟨by decide, by decide⟩

/-- BorrowRecord.Status choices (models.py). -/
inductive LoanStatus
  | ACTIVE
  | RETURNED
  | OVERDUE
  | LOST
deriving DecidableEq, Repr

/-- BorrowRecord fields the borrowing logic reads or writes
(models.py, class BorrowRecord). `book` is the index of the book in the
library state; timestamps are integer seconds. -/
structure BorrowRecord where
  user : Nat
  book : Nat
  borrowed_date : Int
  due_date : Int
  returned_date : Option Int
  status : LoanStatus
deriving DecidableEq, Repr

/-- BorrowRecord.is_overdue property (models.py:210-214): False for a
RETURNED record, otherwise `now > due_date`. -/
def BorrowRecord.is_overdue (r : BorrowRecord) (now : Int) : Bool :=
  if r.status = LoanStatus.RETURNED then false
  else now > r.due_date

/-- BorrowRecord.days_overdue property (models.py:216-221): 0 when not
overdue, otherwise the floor of elapsed whole days of `now - due_date`
(timedelta.days). -/
def BorrowRecord.days_overdue (r : BorrowRecord) (now : Int) : Int :=
  if r.is_overdue now then (now - r.due_date).fdiv secondsPerDay
  else 0

/-- BorrowRecord.calculated_fine property (models.py:223-229): 0 when not
overdue, otherwise `days_overdue * FINE_PER_DAY`. -/
def BorrowRecord.calculated_fine (r : BorrowRecord) (now : Int) : ℚ :=
  if r.is_overdue now then (r.days_overdue now : ℚ) * FINE_PER_DAY
  else 0

/-- The record-level part of BorrowRecord.mark_returned (models.py:231-237):
set returned_date to now and status to RETURNED (the `returned_to` librarian
field is not modelled; the book-side `return_book` call is applied by the
state-level view below). -/
def BorrowRecord.mark_returned_record (r : BorrowRecord) (now : Int) : BorrowRecord :=
  { r with returned_date := some now, status := LoanStatus.RETURNED }

/-- Fine.Status choices (models.py). -/
inductive FineStatus
  | PENDING
  | PAID
  | WAIVED
deriving DecidableEq, Repr

/-- Fine fields the fine logic reads or writes (models.py, class Fine). -/
structure Fine where
  borrow_record : Nat
  user : Nat
  amount : ℚ
  status : FineStatus
  paid_date : Option Int
  paid_amount : Option ℚ
  waived_by : Option Nat
  waiver_reason : String
deriving DecidableEq, Repr

/-- Fine.mark_paid (models.py:297-302): sets paid_date, paid_amount and
status unconditionally. Python `amount or self.amount` falls back to the
fine's full amount when `amount` is None or a falsy number such as 0. -/
def Fine.mark_paid (f : Fine) (amount : Option ℚ) (now : Int) : Fine :=
  { f with
    paid_date := some now
    paid_amount := some (match amount with
      | none => f.amount
      | some a => if a = 0 then f.amount else a)
    status := FineStatus.PAID }

/-- Fine.waive (models.py:304-309): sets waived_by, waiver_reason and
status unconditionally. -/
def Fine.waive (f : Fine) (waived_by : Nat) (reason : String) : Fine :=
  { f with
    waived_by := some waived_by
    waiver_reason := reason
    status := FineStatus.WAIVED }

/-- Reservation.Status choices (models.py). -/
inductive ReservationStatus
  | PENDING
  | READY
  | FULFILLED
  | CANCELLED
  | EXPIRED
deriving DecidableEq, Repr

/-- Reservation fields the reservation logic reads or writes
(models.py, class Reservation). -/
structure Reservation where
  user : Nat
  book : Nat
  status : ReservationStatus
  reserved_date : Int
  notified_date : Option Int
  expiry_date : Option Int
  queue_position : Nat
deriving DecidableEq, Repr

/-- Reservation.notify_ready (models.py:366-372): sets status READY,
notified_date now, expiry_date now + 3 days, unconditionally. -/
def Reservation.notify_ready (r : Reservation) (now : Int) : Reservation :=
  { r with
    status := ReservationStatus.READY
    notified_date := some now
    expiry_date := some (now + 3 * secondsPerDay) }

/-- Reservation.cancel (models.py:374-377): sets status CANCELLED,
unconditionally. -/
def Reservation.cancel (r : Reservation) : Reservation :=
  { r with status := ReservationStatus.CANCELLED }

/-- Reservation.fulfill (models.py:379-382): sets status FULFILLED,
unconditionally. -/
def Reservation.fulfill (r : Reservation) : Reservation :=
  { r with status := ReservationStatus.FULFILLED }

/-- The mutable library state touched by the views: the book catalog
(indexed by position), borrow records, fines and reservations. -/
structure LibState where
  books : List Book
  loans : List BorrowRecord
  fines : List Fine
  reservations : List Reservation
deriving DecidableEq, Repr

/-- `BorrowRecord.objects.filter(user=u, status=ACTIVE).count()`
(views.py:87-90). -/
def activeLoanCount (loans : List BorrowRecord) (u : Nat) : Nat :=
  (loans.filter fun r => decide (r.user = u ∧ r.status = LoanStatus.ACTIVE)).length

/-- `BorrowRecord.objects.filter(user=u, book=pk, status=ACTIVE).exists()`
(views.py:103-107). -/
def hasActiveLoan (loans : List BorrowRecord) (u pk : Nat) : Bool :=
  loans.any fun r =>
    decide (r.user = u ∧ r.book = pk ∧ r.status = LoanStatus.ACTIVE)

/-- Outcome of the borrow_book view, one constructor per rejection path. -/
inductive BorrowResult
  | notFound
  | limitExceeded
  | unavailable
  | duplicateLoan
  | success
deriving DecidableEq, Repr

/-- borrow_book view (views.py:81-133): fetch the book (404 when absent),
then check the loan limit, then availability, then the duplicate-loan check;
on success create BorrowRecord{ACTIVE, due = now + BORROW_PERIOD_DAYS}
(due date filled in by BorrowRecord.save, models.py:203-208) and call
Book.borrow. Audit logging and messages are external side effects and are
not modelled. -/
def borrow_book (s : LibState) (u pk : Nat) (now : Int) : LibState × BorrowResult :=
  match s.books[pk]? with
  | none => (s, BorrowResult.notFound)
  | some book =>
    if activeLoanCount s.loans u ≥ MAX_BOOKS_PER_USER then
      (s, BorrowResult.limitExceeded)
    else if !book.is_available then
      (s, BorrowResult.unavailable)
    else if hasActiveLoan s.loans u pk then
      (s, BorrowResult.duplicateLoan)
    else
      let newRecord : BorrowRecord :=
        { user := u, book := pk, borrowed_date := now,
          due_date := now + BORROW_PERIOD_DAYS * secondsPerDay,
          returned_date := none, status := LoanStatus.ACTIVE }
      ({ s with
          loans := s.loans ++ [newRecord],
          books := s.books.set pk book.borrow.1 },
       BorrowResult.success)

/-- Outcome of the return_book and cancel_reservation views: the
get_object_or_404 lookup either matches or 404s. -/
inductive ViewResult
  | notFound
  | success
deriving DecidableEq, Repr

/-- return_book view (views.py:136-162): get_object_or_404 on
(pk, user, status=ACTIVE), then BorrowRecord.mark_returned
(models.py:231-237), which updates the record and calls
Book.return_book on the loan's book. No fine is created anywhere
on this path. -/
def return_book_view (s : LibState) (u idx : Nat) (now : Int) : LibState × ViewResult :=
  match s.loans[idx]? with
  | none => (s, ViewResult.notFound)
  | some r =>
    if r.user = u ∧ r.status = LoanStatus.ACTIVE then
      let s1 : LibState := { s with loans := s.loans.set idx (r.mark_returned_record now) }
      let s2 : LibState :=
        match s1.books[r.book]? with
        | none => s1
        | some b => { s1 with books := s1.books.set r.book b.return_book.1 }
      (s2, ViewResult.success)
    else
      (s, ViewResult.notFound)

/-- `Reservation.objects.filter(user=u, book=pk, status__in=[PENDING, READY])
.exists()` (views.py:194-198). -/
def hasActiveReservation (rs : List Reservation) (u pk : Nat) : Bool :=
  rs.any fun r =>
    decide (r.user = u ∧ r.book = pk ∧
      (r.status = ReservationStatus.PENDING ∨ r.status = ReservationStatus.READY))

/-- `Reservation.objects.filter(book=pk, status=PENDING).count()`
(views.py:203-206). -/
def pendingCount (rs : List Reservation) (pk : Nat) : Nat :=
  (rs.filter fun r =>
    decide (r.book = pk ∧ r.status = ReservationStatus.PENDING)).length

/-- Outcome of the reserve_book view. -/
inductive ReserveResult
  | notFound
  | duplicateReservation
  | success
deriving DecidableEq, Repr

/-- reserve_book view (views.py:188-216): fetch the book (404 when absent),
reject a duplicate active reservation, else create
Reservation{PENDING, queue_position = pendingCount + 1}. -/
def reserve_book (s : LibState) (u pk : Nat) (now : Int) : LibState × ReserveResult :=
  match s.books[pk]? with
  | none => (s, ReserveResult.notFound)
  | some _ =>
    if hasActiveReservation s.reservations u pk then
      (s, ReserveResult.duplicateReservation)
    else
      let pos : Nat := pendingCount s.reservations pk + 1
      let newRes : Reservation :=
        { user := u, book := pk, status := ReservationStatus.PENDING,
          reserved_date := now, notified_date := none, expiry_date := none,
          queue_position := pos }
      ({ s with reservations := s.reservations ++ [newRes] }, ReserveResult.success)

/-- cancel_reservation view (views.py:219-231): get_object_or_404 on
(pk, user, status__in=[PENDING, READY]), then Reservation.cancel. -/
def cancel_reservation_view (s : LibState) (u idx : Nat) : LibState × ViewResult :=
  match s.reservations[idx]? with
  | none => (s, ViewResult.notFound)
  | some r =>
    if r.user = u ∧
        (r.status = ReservationStatus.PENDING ∨ r.status = ReservationStatus.READY) then
      ({ s with reservations := s.reservations.set idx r.cancel }, ViewResult.success)
    else
      (s, ViewResult.notFound)

/-- C1: borrow_book evaluates its preconditions in a fixed order with the
first failure winning — loan limit first, then availability, then the
duplicate-loan check — and any rejected request leaves the state unchanged
(no loan created, no copy counts changed). -/
theorem c1_borrow_preconditions (s : LibState) (u pk : Nat) (now : Int) (b : Book)
    (hb : s.books[pk]? = some b) :
    (activeLoanCount s.loans u ≥ MAX_BOOKS_PER_USER →
      borrow_book s u pk now = (s, BorrowResult.limitExceeded)) ∧
    (activeLoanCount s.loans u < MAX_BOOKS_PER_USER → b.is_available = false →
      borrow_book s u pk now = (s, BorrowResult.unavailable)) ∧
    (activeLoanCount s.loans u < MAX_BOOKS_PER_USER → b.is_available = true →
      hasActiveLoan s.loans u pk = true →
      borrow_book s u pk now = (s, BorrowResult.duplicateLoan)) ∧
    ((borrow_book s u pk now).2 ≠ BorrowResult.success →
      (borrow_book s u pk now).1 = s) := by
  simp only [borrow_book, hb]
  refine ⟨?_, ?_, ?_, ?_⟩ <;> intros <;> split_ifs <;> simp_all <;> omega

/-- A book with one available copy. -/
def bkA : Book := ⟨1, 1, BookStatus.AVAILABLE⟩

/-- An ACTIVE loan of book `pk` by user `u`. -/
def lnActive (u pk : Nat) : BorrowRecord :=
  ⟨u, pk, 0, 14 * 86400, none, LoanStatus.ACTIVE⟩

/-- A state in which user 0 already holds 5 ACTIVE loans. -/
def sLimit : LibState := ⟨[bkA], List.replicate 5 (lnActive 0 0), [], []⟩

/-- Witness for C1: with 5 ACTIVE loans the request is rejected with the
loan-limit error and the state is unchanged. -/
theorem c1_borrow_preconditions_witness :
    borrow_book sLimit 0 0 0 = (sLimit, BorrowResult.limitExceeded) :=
  (c1_borrow_preconditions sLimit 0 0 0 bkA (by decide)).1 (by decide)

/-- C3: borrow_book is all-or-nothing — either the ACTIVE loan (with
due_date = now + BORROW_PERIOD_DAYS) is appended and the book's
available_copies is decremented by one, or the state is left entirely
unchanged and the result is a rejection. -/
theorem c3_borrow_atomic (s : LibState) (u pk : Nat) (now : Int) :
    (∃ b, s.books[pk]? = some b ∧ 0 < b.available_copies ∧
      borrow_book s u pk now =
        ({ s with
            loans := s.loans ++ [⟨u, pk, now,
              now + BORROW_PERIOD_DAYS * secondsPerDay, none, LoanStatus.ACTIVE⟩],
            books := s.books.set pk b.borrow.1 }, BorrowResult.success) ∧
      b.borrow.1.available_copies = b.available_copies - 1) ∨
    ((borrow_book s u pk now).1 = s ∧
      (borrow_book s u pk now).2 ≠ BorrowResult.success) := by
  rcases hb : s.books[pk]? with _ | b
  · right
    simp [borrow_book, hb]
  · simp only [borrow_book, hb]
    split_ifs with h1 h2 h3
    · right; simp
    · right; simp
    · right; simp
    · left
      have hpos : 0 < b.available_copies := by
        simp [Book.is_available] at h2
        omega
      refine ⟨b, rfl, hpos, rfl, ?_⟩
      simp only [Book.borrow, if_pos hpos]
      split_ifs <;> rfl

/-- Witness for C3: the all-or-nothing disjunction instantiated at a
concrete state (one available copy, no loans). -/
theorem c3_borrow_atomic_witness :
    (∃ b, sLimit.books[0]? = some b ∧ 0 < b.available_copies ∧
      borrow_book sLimit 3 0 0 =
        ({ sLimit with
            loans := sLimit.loans ++ [⟨3, 0, 0,
              0 + BORROW_PERIOD_DAYS * secondsPerDay, none, LoanStatus.ACTIVE⟩],
            books := sLimit.books.set 0 b.borrow.1 }, BorrowResult.success) ∧
      b.borrow.1.available_copies = b.available_copies - 1) ∨
    ((borrow_book sLimit 3 0 0).1 = sLimit ∧
      (borrow_book sLimit 3 0 0).2 ≠ BorrowResult.success) :=
  c3_borrow_atomic sLimit 3 0 0

/-- A book with 1 of 2 copies available. -/
def bkRet : Book := ⟨2, 1, BookStatus.AVAILABLE⟩

/-- An ACTIVE loan of book 0 by user 7, due at time 86400 (day 1). -/
def lnOverdue : BorrowRecord := ⟨7, 0, 0, 86400, none, LoanStatus.ACTIVE⟩

/-- A state holding that overdue loan and no fines. -/
def sReturn : LibState := ⟨[bkRet], [lnOverdue], [], []⟩

/-- Counterexample to C4: returning a loan that is 3 whole days overdue
succeeds, yet the number of fines afterwards is 0, not 1 — return_book /
mark_returned never create a Fine. -/
theorem c4_counterexample :
    lnOverdue.is_overdue (4 * 86400) = true ∧
    lnOverdue.days_overdue (4 * 86400) = 3 ∧
    (return_book_view sReturn 7 0 (4 * 86400)).2 = ViewResult.success ∧
    (return_book_view sReturn 7 0 (4 * 86400)).1.fines.length = 0 := by
  decide

/-- C4 (amended): marking an ACTIVE loan returned sets returned_date = now
and status = RETURNED and increments the book's available copies (when below
total_copies), but creates no Fine: the fines collection is unchanged. -/
theorem c4_mark_returned (s : LibState) (u idx : Nat) (now : Int) (r : BorrowRecord)
    (hr : s.loans[idx]? = some r) (hu : r.user = u) (hs : r.status = LoanStatus.ACTIVE) :
    ((return_book_view s u idx now).2 = ViewResult.success) ∧
    ((return_book_view s u idx now).1.loans[idx]? =
      some { r with returned_date := some now, status := LoanStatus.RETURNED }) ∧
    ((return_book_view s u idx now).1.fines = s.fines) ∧
    (∀ b, s.books[r.book]? = some b → b.available_copies < b.total_copies →
      ((return_book_view s u idx now).1.books[r.book]?).map Book.available_copies =
        some (b.available_copies + 1)) := by
  have hidx : idx < s.loans.length := (List.getElem?_eq_some.mp hr).1
  simp only [return_book_view, hr]
  rw [if_pos ⟨hu, hs⟩]
  refine ⟨?_, ?_, ?_, ?_⟩
  · rcases hbk : s.books[r.book]? with _ | b <;> simp [hbk]
  · rcases hbk : s.books[r.book]? with _ | b <;>
      simp [hbk, BorrowRecord.mark_returned_record,
        List.getElem?_set_eq_of_lt _ (by simpa using hidx)]
  · rcases hbk : s.books[r.book]? with _ | b <;> simp [hbk]
  · intro b hbk hlt
    have hbidx : r.book < s.books.length := (List.getElem?_eq_some.mp hbk).1
    simp only [hbk]
    rw [List.getElem?_set_eq_of_lt _ (by simpa using hbidx)]
    simp only [Book.return_book, if_pos hlt, Option.map_some']
    split_ifs <;> rfl

/-- Witness for C4 (amended) at the concrete overdue-loan state. -/
theorem c4_mark_returned_witness :
    ((return_book_view sReturn 7 0 (4 * 86400)).2 = ViewResult.success) ∧
    ((return_book_view sReturn 7 0 (4 * 86400)).1.loans[0]? =
      some (lnOverdue.mark_returned_record (4 * 86400))) ∧
    ((return_book_view sReturn 7 0 (4 * 86400)).1.fines = sReturn.fines) ∧
    (∀ b, sReturn.books[lnOverdue.book]? = some b →
      b.available_copies < b.total_copies →
      ((return_book_view sReturn 7 0 (4 * 86400)).1.books[lnOverdue.book]?).map
          Book.available_copies = some (b.available_copies + 1)) :=
  c4_mark_returned sReturn 7 0 (4 * 86400) lnOverdue (by decide) (by decide) (by decide)

/-- A fine of 1.50 that has been waived. -/
def fnWaived : Fine := ⟨0, 7, 3 / 2, FineStatus.WAIVED, none, none, some 1, ""⟩

/-- Counterexample to C5: mark_paid on a WAIVED fine does not fail — it
moves the fine to PAID, and waive moves a PAID fine to WAIVED, so PAID and
WAIVED are not terminal and no InvalidFineState rejection exists. -/
theorem c5_counterexample :
    fnWaived.status = FineStatus.WAIVED ∧
    (fnWaived.mark_paid none 0).status = FineStatus.PAID ∧
    ((fnWaived.mark_paid none 0).waive 2 "").status = FineStatus.WAIVED :=
  ⟨rfl, rfl, rfl⟩

/-- C5 (amended): mark_paid and waive check no precondition at all: from any
current status they unconditionally set status PAID respectively WAIVED, so
neither PAID nor WAIVED is terminal. -/
theorem c5_fine_transitions_unconditional (f : Fine) (amount : Option ℚ) (now : Int)
    (w : Nat) (reason : String) :
    (f.mark_paid amount now).status = FineStatus.PAID ∧
    (f.waive w reason).status = FineStatus.WAIVED :=
  ⟨rfl, rfl⟩

/-- C9: mark_paid with a falsy payment amount — 0 as well as the default
None — records paid_amount equal to the fine's full amount, and the two
calls produce identical fine records. -/
theorem c9_mark_paid_falsy_amount (f : Fine) (now : Int) :
    f.mark_paid (some 0) now = f.mark_paid none now ∧
    (f.mark_paid (some 0) now).paid_amount = some f.amount ∧
    (f.mark_paid none now).paid_amount = some f.amount := by
  refine ⟨?_, ?_, ?_⟩ <;> simp [Fine.mark_paid]

/-- An ACTIVE loan due at time 0 (borrowed 14 days earlier). -/
def lnDue0 : BorrowRecord := ⟨1, 0, -14 * 86400, 0, none, LoanStatus.ACTIVE⟩

/-- A RETURNED loan due at time 0, returned 3 days late. -/
def lnRet : BorrowRecord := ⟨1, 0, -14 * 86400, 0, some (3 * 86400), LoanStatus.RETURNED⟩

/-- Counterexample to C8: the fine computed at return time (3 whole days
overdue) is 1.50, but re-running calculated_fine after the loan is RETURNED
yields 0, not the stored 1.50. -/
theorem c8_counterexample :
    lnDue0.calculated_fine (3 * 86400) = 3 / 2 ∧
    (lnDue0.mark_returned_record (3 * 86400)).calculated_fine (10 * 86400) = 0 ∧
    (3 / 2 : ℚ) ≠ 0 := by
  have ho : lnDue0.is_overdue (3 * 86400) = true := by decide
  have hd : lnDue0.days_overdue (3 * 86400) = 3 := by decide
  refine ⟨?_, ?_, ?_⟩
  · simp only [BorrowRecord.calculated_fine, ho, if_true, hd, FINE_PER_DAY]
    norm_num
  · simp [BorrowRecord.calculated_fine, BorrowRecord.is_overdue,
      BorrowRecord.mark_returned_record]
  · norm_num

/-- C8 (amended): once a loan is RETURNED, calculated_fine evaluates to 0 at
every later time — is_overdue is false for RETURNED records — so the
calculation does not reproduce the amount that was computed at return time. -/
theorem c8_returned_fine_zero (r : BorrowRecord) (t now : Int) :
    (r.mark_returned_record t).calculated_fine now = 0 ∧
    (r.status = LoanStatus.RETURNED → r.calculated_fine now = 0) := by
  constructor
  · simp [BorrowRecord.calculated_fine, BorrowRecord.is_overdue,
      BorrowRecord.mark_returned_record]
  · intro h
    simp [BorrowRecord.calculated_fine, BorrowRecord.is_overdue, h]

/-- Witness for C8 (amended) on concrete returned loans. -/
theorem c8_returned_fine_zero_witness :
    (lnDue0.mark_returned_record (3 * 86400)).calculated_fine (10 * 86400) = 0 ∧
    lnRet.calculated_fine (10 * 86400) = 0 :=
  ⟨(c8_returned_fine_zero lnDue0 (3 * 86400) (10 * 86400)).1,
   (c8_returned_fine_zero lnRet 0 (10 * 86400)).2 (by decide)⟩

/-- Setting an index of a list to the element it already holds leaves the
list unchanged. -/
lemma list_set_self {α : Type} (l : List α) (i : Nat) (a : α) (h : l[i]? = some a) :
    l.set i a = l := by
  apply List.ext_getElem?
  intro n
  by_cases hn : i = n
  · subst hn
    rw [List.getElem?_set_eq_of_lt _ (List.getElem?_eq_some.mp h).1, h]
  · exact List.getElem?_set_ne hn

/-- A FULFILLED (terminal) reservation held by user 7 on book 0. -/
def rsvFulfilled : Reservation := ⟨7, 0, ReservationStatus.FULFILLED, 0, none, none, 1⟩

/-- Counterexample to C6: Reservation.cancel moves a FULFILLED (terminal)
reservation to CANCELLED and notify_ready moves it to READY — no
InvalidReservationState rejection exists at the model level, and terminal
states admit further transitions. -/
theorem c6_counterexample :
    rsvFulfilled.status = ReservationStatus.FULFILLED ∧
    rsvFulfilled.cancel.status = ReservationStatus.CANCELLED ∧
    (rsvFulfilled.notify_ready 0).status = ReservationStatus.READY :=
  ⟨rfl, rfl, rfl⟩

/-- C6 (amended): the model methods notify_ready, cancel and fulfill set the
reservation status unconditionally from any current status, terminal states
included; only the cancel view enforces a precondition, by 404-ing unless
the reservation's status is PENDING or READY. -/
theorem c6_reservation_transitions_unconditional (r : Reservation) (now : Int)
    (s : LibState) (u idx : Nat) (r' : Reservation)
    (hr : s.reservations[idx]? = some r')
    (hst : ¬(r'.status = ReservationStatus.PENDING ∨
      r'.status = ReservationStatus.READY)) :
    (r.notify_ready now).status = ReservationStatus.READY ∧
    r.cancel.status = ReservationStatus.CANCELLED ∧
    r.fulfill.status = ReservationStatus.FULFILLED ∧
    cancel_reservation_view s u idx = (s, ViewResult.notFound) := by
  refine ⟨rfl, rfl, rfl, ?_⟩
  simp only [cancel_reservation_view, hr]
  rw [if_neg fun hc => hst hc.2]

/-- A state holding only the fulfilled reservation. -/
def sRsv : LibState := ⟨[bkA], [], [], [rsvFulfilled]⟩

/-- Witness for C6 (amended) at the fulfilled reservation. -/
theorem c6_reservation_transitions_unconditional_witness :
    (rsvFulfilled.notify_ready 0).status = ReservationStatus.READY ∧
    rsvFulfilled.cancel.status = ReservationStatus.CANCELLED ∧
    rsvFulfilled.fulfill.status = ReservationStatus.FULFILLED ∧
    cancel_reservation_view sRsv 7 0 = (sRsv, ViewResult.notFound) :=
  c6_reservation_transitions_unconditional rsvFulfilled 0 sRsv 7 0 rsvFulfilled
    (by decide) (by decide)

/-- C7: a successfully created reservation is appended with queue_position
equal to the count of the book's PENDING reservations plus one; reserve_book
leaves every pre-existing reservation untouched, and cancelling changes no
reservation's queue_position — positions are never renumbered. -/
theorem c7_queue_position (s : LibState) (u pk : Nat) (now : Int) :
    ((reserve_book s u pk now).2 = ReserveResult.success →
      (reserve_book s u pk now).1.reservations =
        s.reservations ++ [⟨u, pk, ReservationStatus.PENDING, now, none, none,
          pendingCount s.reservations pk + 1⟩]) ∧
    (∀ i, i < s.reservations.length →
      (reserve_book s u pk now).1.reservations[i]? = s.reservations[i]?) ∧
    (∀ idx, (cancel_reservation_view s u idx).1.reservations.map
        Reservation.queue_position =
      s.reservations.map Reservation.queue_position) := by
  refine ⟨?_, ?_, ?_⟩
  · intro h
    rcases hb : s.books[pk]? with _ | b
    · simp [reserve_book, hb] at h
    · simp only [reserve_book, hb] at h ⊢
      split_ifs at h ⊢ with hd
      rfl
  · intro i hi
    rcases hb : s.books[pk]? with _ | b
    · simp [reserve_book, hb]
    · simp only [reserve_book, hb]
      split_ifs with hd
      · rfl
      · exact List.getElem?_append_left hi
  · intro idx
    rcases hr : s.reservations[idx]? with _ | r
    · simp [cancel_reservation_view, hr]
    · simp only [cancel_reservation_view, hr]
      split_ifs with hc
      · rw [List.map_set]
        apply list_set_self
        rw [List.getElem?_map, hr]
        rfl
      · rfl

/-- An unavailable book: no copies free. -/
def bkZero : Book := ⟨1, 0, BookStatus.BORROWED⟩

/-- A state with one unavailable book and no reservations. -/
def sQueue : LibState := ⟨[bkZero], [], [], []⟩

/-- Witness for C7: three distinct users reserving the same unavailable
book in sequence receive queue positions 1, 2, 3. -/
theorem c7_queue_position_witness :
    ((reserve_book sQueue 1 0 0).1.reservations.map Reservation.queue_position
        = [1]) ∧
    (((reserve_book (reserve_book sQueue 1 0 0).1 2 0 0).1.reservations.map
        Reservation.queue_position) = [1, 2]) ∧
    (((reserve_book (reserve_book (reserve_book sQueue 1 0 0).1 2 0 0).1
        3 0 0).1.reservations.map Reservation.queue_position) = [1, 2, 3]) := by
  have h1 := (c7_queue_position sQueue 1 0 0).1 (by decide)
  have h2 := (c7_queue_position (reserve_book sQueue 1 0 0).1 2 0 0).1 (by decide)
  have h3 := (c7_queue_position
    (reserve_book (reserve_book sQueue 1 0 0).1 2 0 0).1 3 0 0).1 (by decide)
  refine ⟨?_, ?_, ?_⟩
  · rw [h1]; decide
  · rw [h2, h1]; decide
  · rw [h3, h2, h1]; decide

/-- A book under maintenance that still has a free copy. -/
def bkMaint : Book := ⟨2, 1, BookStatus.MAINTENANCE⟩

/-- A state holding only the maintenance book. -/
def sMaint : LibState := ⟨[bkMaint], [], [], []⟩

/-- C10: Book.is_available is exactly `available_copies > 0`, independent of
the status field, so a MAINTENANCE book with a free copy passes the
availability check in borrow_book and can be borrowed. -/
theorem c10_is_available_ignores_status (b : Book) (st : BookStatus)
    (s : LibState) (u pk : Nat) (now : Int) :
    (b.is_available = true ↔ 0 < b.available_copies) ∧
    ({ b with status := st }.is_available = b.is_available) ∧
    (s.books[pk]? = some b → b.status = BookStatus.MAINTENANCE →
      0 < b.available_copies →
      activeLoanCount s.loans u < MAX_BOOKS_PER_USER →
      hasActiveLoan s.loans u pk = false →
      (borrow_book s u pk now).2 = BorrowResult.success) := by
  refine ⟨?_, rfl, ?_⟩
  · simp [Book.is_available]
  · intro hb hm hav hcnt hdup
    simp only [borrow_book, hb]
    rw [if_neg (by omega), if_neg (by simp [Book.is_available, hav]),
      if_neg (by simp [hdup])]

/-- Witness for C10: the MAINTENANCE book with one free copy is borrowed
successfully. -/
theorem c10_is_available_ignores_status_witness :
    (borrow_book sMaint 0 0 0).2 = BorrowResult.success :=
  (c10_is_available_ignores_status bkMaint BookStatus.MAINTENANCE sMaint 0 0 0).2.2
    (by decide) (by decide) (by decide) (by decide) (by decide)

end LibrarySystem
